import Mathlib

/-
Verification of the MagentoStream REST client (tap_magento/client.py).

The Python code is shallowly embedded: parsed JSON bodies are values of an
inductive `Json` type restricted to null, integers, strings and objects
(the shapes the client actually touches); Python exceptions become
`Except` errors; the HTTP world is passed in explicitly as the responses
each endpoint would produce; mutable state (the cached access token) is
threaded explicitly; and lists of (endpoint, payload) pairs record the
HTTP calls a function performs, so that "issues zero HTTP calls" is a
statement about the returned log.
-/

namespace TapMagento

/-- A parsed JSON value as the client consumes it: Python None, int, str
or dict.  (The client never does arithmetic or comparisons on JSON arrays,
booleans or floats, so those shapes are outside the model.) -/
inductive Json where
  | null
  | int (n : Int)
  | str (s : String)
  | obj (fields : List (String × Json))

/-- Python truthiness of a JSON value: None, 0, "" and {} are falsy. -/
def truthy : Json → Bool
  | .null => false
  | .int n => n != 0
  | .str s => s != ""
  | .obj l => !l.isEmpty

/-- Python truthiness of an optional value (`None` when absent). -/
def truthyOpt : Option Json → Bool
  | none => false
  | some j => truthy j

/-- Python truthiness of an optional string config entry. -/
def truthyStrOpt : Option String → Bool
  | none => false
  | some s => s != ""

/-- Python dict lookup `d.get(key)` on a JSON object's field list
(keys are distinct in every dict the client builds or reads). -/
def dictGet : List (String × Json) → String → Option Json
  | [], _ => none
  | (k, v) :: rest, key => if k = key then some v else dictGet rest key

/-- Python `x * n` for a JSON value `x` and a non-negative int literal
`n`: ints multiply, strings repeat, None and dicts raise TypeError. -/
def pyMul : Json → Nat → Except String Json
  | .int m, n => .ok (.int (m * n))
  | .str s, n => .ok (.str (String.join (List.replicate n s)))
  | _, _ => .error "TypeError"

/-- Python `a > b` on JSON values: int/int and str/str compare,
every other combination raises TypeError. -/
def pyGt : Json → Json → Except String Bool
  | .int a, .int b => .ok (decide (b < a))
  | .str a, .str b => .ok (decide (b < a))
  | _, _ => .error "TypeError"

/-- Python `x + 1`: defined on ints only, otherwise TypeError. -/
def pyAdd1 : Json → Except String Json
  | .int n => .ok (.int (n + 1))
  | _ => .error "TypeError"

/-- MagentoStream.get_next_page_token.  `jsonpathConfigured` and
`firstMatch` stand for `self.next_page_token_jsonpath` being set and the
first match of `extract_jsonpath` over the body; `body` is the parsed
JSON object of the response.  A Python exception raised while computing
`total_count > current_page * 300` or `current_page + 1` is an
`Except.error`. -/
def get_next_page_token (jsonpathConfigured : Bool) (firstMatch : Option Json)
    (status : Nat) (body : List (String × Json)) : Except String (Option Json) :=
  if jsonpathConfigured then .ok firstMatch
  else if status = 404 then .ok none
  else
    let total_count := (dictGet body "total_count").getD (Json.int 0)
    let scOpt := dictGet body "search_criteria"
    let cpE : Except String Json :=
      if truthyOpt scOpt then
        match scOpt with
        | some (Json.obj fields) => .ok ((dictGet fields "current_page").getD Json.null)
        | _ => .error "AttributeError"
      else .ok (Json.int 1)
    match cpE with
    | .error e => .error e
    | .ok current_page =>
      match pyMul current_page 300 with
      | .error e => .error e
      | .ok prod =>
        match pyGt total_count prod with
        | .error e => .error e
        | .ok b =>
          if b then
            match pyAdd1 current_page with
            | .error e => .error e
            | .ok np => .ok (some np)
          else .ok none

/-- MagentoStream.get_url_params.  `rk` is `self.replication_key`,
`start_date` the already-formatted result of `get_starting_timestamp`
(None when no starting timestamp resolves), `tok` the next-page token. -/
def get_url_params (rk : Option String) (start_date : Option String)
    (tok : Option Json) : List (String × Json) :=
  let cur : Json :=
    match tok with
    | some j => if truthy j then j else Json.int 1
    | none => Json.int 1
  let params : List (String × Json) :=
    [("searchCriteria[pageSize]", Json.int 300),
     ("searchCriteria[currentPage]", cur)]
  if truthyStrOpt rk then
    let k := rk.getD ""
    let params2 : List (String × Json) :=
      match start_date with
      | some d =>
        params ++ [("sort", Json.str "asc"),
          ("searchCriteria[filterGroups][0][filters][0][field]", Json.str k),
          ("searchCriteria[filterGroups][0][filters][0][value]", Json.str d),
          ("searchCriteria[filterGroups][0][filters][0][conditionType]", Json.str "gt")]
      | none => params
    params2 ++ [("order_by", Json.str k)]
  else params

/-- The exceptions relevant to the request path: the two singer_sdk API
errors raised by validate_response (tagged with the offending status),
requests.exceptions.ReadTimeout, the builtin ConnectionError that
request_decorator names in its tuple, and
requests.exceptions.ConnectionError — the class a connection-level
failure of a requests call actually raises.  The latter two are
distinct classes: requests' ConnectionError subclasses
RequestException (and through it OSError) but not the builtin
ConnectionError, so an isinstance test against the builtin does not
match it. -/
inductive ApiErr where
  | fatalAPI (status : Nat)
  | retriableAPI (status : Nat)
  | readTimeout
  | connectionError
  | requestsConnectionError
deriving DecidableEq, Repr

/-- MagentoStream.validate_response: 404 passes, other 4xx raise
FatalAPIError, 5xx raise RetriableAPIError, everything else passes. -/
def validate_response (status : Nat) : Except ApiErr Unit :=
  if status = 404 then .ok ()
  else if 400 ≤ status ∧ status < 500 then .error (.fatalAPI status)
  else if 500 ≤ status ∧ status < 600 then .error (.retriableAPI status)
  else .ok ()

/-- MagentoStream.parse_response: a 404 yields no records, otherwise the
rows extracted by the records jsonpath (passed in as `extracted`). -/
def parse_response (status : Nat) (extracted : List Json) : List Json :=
  if status = 404 then [] else extracted

/-- The isinstance test backoff.on_exception performs against the tuple
(RetriableAPIError, requests.exceptions.ReadTimeout, ConnectionError)
written in request_decorator.  The tuple's unqualified ConnectionError
is the Python builtin; requests.exceptions.ConnectionError is not a
subclass of it, so the connection-level failures a requests call raises
do not match the tuple and are not retried. -/
def isRetriable : ApiErr → Bool
  | .retriableAPI _ => true
  | .readTimeout => true
  | .connectionError => true
  | .requestsConnectionError => false
  | .fatalAPI _ => false

/-- Core loop of backoff.on_exception: run attempt `i` of `f`; on an
exception in the retried tuple with retries remaining, try again,
otherwise propagate.  Returns the result together with the number of
attempts actually made. -/
def retryRun (f : Nat → Except ApiErr α) (i : Nat) : Nat → Except ApiErr α × Nat
  | 0 => (f i, 1)
  | rem + 1 =>
    match f i with
    | .ok a => (.ok a, 1)
    | .error e =>
      if isRetriable e then
        ((retryRun f (i + 1) rem).1, (retryRun f (i + 1) rem).2 + 1)
      else (.error e, 1)

/-- MagentoStream.request_decorator: backoff.on_exception(backoff.expo,
(RetriableAPIError, ReadTimeout, ConnectionError), max_tries=5, factor=2)
applied to the wrapped call.  `f i` is the outcome of the (i+1)-th
attempt; max_tries=5 means the first attempt plus at most 4 retries. -/
def request_decorator (f : Nat → Except ApiErr α) : Except ApiErr α × Nat :=
  retryRun f 0 4

/-- The wait generator backoff.expo with factor=2 and the default base 2:
the n-th value (n from 0) is factor * base ^ n. -/
def backoffWait (n : Nat) : Nat := 2 * 2 ^ n

/-- The tap configuration entries the authenticator reads.  An absent
entry is `none` (config.get returns None). -/
structure Config where
  username : Option String
  password : Option String
  api_key : Option String

/-- The two token-issuance endpoints: primary is
{store_url}/index.php/rest/V1/integration/admin/token, fallback is
{store_url}/rest/V1/integration/admin/token. -/
inductive Endpoint where
  | primary
  | fallback
deriving DecidableEq, Repr

/-- The JSON payload posted to a token endpoint (the constant
Content-Type entry aside): the configured username and password. -/
structure Payload where
  username : Option String
  password : Option String
deriving DecidableEq, Repr

/-- What a POST to an endpoint does: either the request itself raises
(connection error and the like), or a response arrives with a status
code and a body that `response.json()` parses to `some` value or fails
to parse (`none`). -/
inductive HttpResult where
  | exn
  | ok (status : Nat) (body : Option Json)

/-- Exceptions the token-acquisition path can propagate: the HTTPError of
raise_for_status (tagged with the status), a JSON decode failure of
response.json(), or a transport-level exception of the POST itself. -/
inductive HErr where
  | httpError (status : Nat)
  | jsonDecode
  | transport
deriving DecidableEq, Repr

/-- requests' raise_for_status raises exactly on status 400-599. -/
def raisesForStatus (s : Nat) : Bool := decide (400 ≤ s) && decide (s < 600)

/-- Whether the try-block around the primary POST raises, triggering the
fallback: the POST itself raises, or login.json() fails to parse, or
login.raise_for_status() fires. -/
def primaryRaises : HttpResult → Bool
  | .exn => true
  | .ok s b => b.isNone || raisesForStatus s

/-- The payload get_token posts, built from the configuration. -/
def tokenPayload (cfg : Config) : Payload := ⟨cfg.username, cfg.password⟩

/-- Models `login.raise_for_status(); self.access_token = login.json()`
applied to the response held in `login` after the try/except: returns
the token and the new cached state (the state is unchanged on error).
The `.exn` case models the fallback POST itself raising inside the
except-block, which propagates. -/
def finishLogin (st : Json) : HttpResult → Except HErr Json × Json
  | .exn => (.error .transport, st)
  | .ok s b =>
    if raisesForStatus s then (.error (.httpError s), st)
    else
      match b with
      | some j => (.ok j, j)
      | none => (.error .jsonDecode, st)

/-- MagentoStream.get_token.  `st` is the cached `self.access_token`
(`Json.null` models Python None, its initial value); `respond` gives the
outcome of POSTing each endpoint.  Returns the result of the call, the
new cached state, and the ordered log of (endpoint, payload) POSTs
performed. -/
def get_token (cfg : Config) (st : Json) (respond : Endpoint → HttpResult) :
    Except HErr Json × Json × List (Endpoint × Payload) :=
  if truthy st then (.ok st, st, [])
  else
    let pay := tokenPayload cfg
    let p := respond .primary
    if primaryRaises p then
      let r := finishLogin st (respond .fallback)
      (r.1, r.2, [(.primary, pay), (.fallback, pay)])
    else
      let r := finishLogin st p
      (r.1, r.2, [(.primary, pay)])

/-- MagentoStream.authenticator: when a truthy username and a non-None
password are configured the token comes from get_token, otherwise the
token is config.get("api_key") — which is None when api_key is absent.
The resolved token (None modeled as `none`), the new cached state and
the HTTP call log are returned; no branch raises an AuthError. -/
def authenticator (cfg : Config) (st : Json) (respond : Endpoint → HttpResult) :
    Except HErr (Option Json) × Json × List (Endpoint × Payload) :=
  if truthyStrOpt cfg.username && cfg.password.isSome then
    let r := get_token cfg st respond
    (r.1.map some, r.2.1, r.2.2)
  else
    (.ok (cfg.api_key.map Json.str), st, [])

/-- C3 counterexample: with no api_key, no username and no password
configured, resolving the authenticator's token does not fail — the
api_key branch is taken and the resolved token is None (`.ok none`),
with no AuthError raised (indeed no branch of the code can raise one). -/
theorem c3_counterexample :
    (authenticator ⟨none, none, none⟩ Json.null (fun _ => HttpResult.exn)).1
      = .ok none := rfl

/-- C3 amended: for every configuration in which the username/password
condition fails and no api_key is present, the authenticator resolves to
a None token with no HTTP call and no error of any kind — the code has
no AuthError path. -/
theorem c3_amended (cfg : Config) (st : Json) (respond : Endpoint → HttpResult)
    (hcred : (truthyStrOpt cfg.username && cfg.password.isSome) = false)
    (hkey : cfg.api_key = none) :
    authenticator cfg st respond = (.ok none, st, []) := by
  simp [authenticator, hcred, hkey]

theorem c3_amended_witness :
    authenticator ⟨none, none, none⟩ Json.null (fun _ => HttpResult.exn)
      = (.ok none, Json.null, []) :=
  c3_amended ⟨none, none, none⟩ Json.null (fun _ => HttpResult.exn) rfl rfl

/-- C5: with only api_key configured (no username, no password),
resolving the authenticator's token returns the configured api_key and
the HTTP call log is empty. -/
theorem c5_api_key_only (cfg : Config) (st : Json)
    (respond : Endpoint → HttpResult) (k : String)
    (hu : cfg.username = none) (_hp : cfg.password = none)
    (hk : cfg.api_key = some k) :
    authenticator cfg st respond = (.ok (some (Json.str k)), st, []) := by
  simp [authenticator, truthyStrOpt, hu, hk]

theorem c5_api_key_only_witness :
    authenticator ⟨none, none, some "KEY"⟩ Json.null (fun _ => HttpResult.exn)
      = (.ok (some (Json.str "KEY")), Json.null, []) :=
  c5_api_key_only ⟨none, none, some "KEY"⟩ Json.null (fun _ => HttpResult.exn)
    "KEY" rfl rfl rfl

/-- C8: for every response with status 404 and no next-page jsonpath
configured, validate_response raises nothing, parse_response yields no
records, and get_next_page_token returns None. -/
theorem c8_404_not_an_error (body : List (String × Json)) (extracted : List Json) :
    validate_response 404 = .ok () ∧
    parse_response 404 extracted = [] ∧
    get_next_page_token false none 404 body = .ok none :=
  ⟨rfl, rfl, rfl⟩

/-- The integer the body yields for total_count under
`json_data.get("total_count", 0)`: 0 when absent, its value when an int,
unreadable (`none`) otherwise. -/
def specTotalCount (body : List (String × Json)) : Option Int :=
  match (dictGet body "total_count").getD (Json.int 0) with
  | Json.int n => some n
  | _ => none

/-- The integer current_page the code ends up comparing against: 1 when
search_criteria is absent or falsy (None, 0, "", empty object), the
integer field when search_criteria is a non-empty object holding an int
current_page, and unreadable (`none`) in every other case — those other
cases are exactly where the Python raises instead of returning. -/
def specCurrentPage (body : List (String × Json)) : Option Int :=
  match dictGet body "search_criteria" with
  | some (Json.obj fields) =>
    if fields.isEmpty then some 1
    else
      match dictGet fields "current_page" with
      | some (Json.int n) => some n
      | _ => none
  | some j => if truthy j then none else some 1
  | none => some 1

/-- C1 counterexample: a non-404 response whose body has total_count 301
and a non-empty search_criteria object that lacks current_page.  The
claim says current_page defaults to 1 so the call returns 2; the code
instead evaluates `total_count > None * 300` and raises TypeError,
returning nothing. -/
theorem c1_counterexample :
    get_next_page_token false none 200
      [("total_count", Json.int 301),
       ("search_criteria", Json.obj [("page_size", Json.int 300)])]
      = .error "TypeError" := rfl

/-- C1 amended: for every non-404 response with no next-page jsonpath
whose body is well-read — total_count absent (read as 0) or an int, and
search_criteria either absent/falsy (current_page read as 1) or a
non-empty object with an int current_page — get_next_page_token returns
current_page + 1 exactly when total_count > current_page * 300 and None
otherwise.  When search_criteria is a non-empty object without an int
current_page the code raises TypeError instead (see the
counterexample). -/
theorem c1_page_token_arithmetic (status : Nat) (body : List (String × Json))
    (tc cp : Int) (hs : status ≠ 404)
    (htc : specTotalCount body = some tc)
    (hcp : specCurrentPage body = some cp) :
    get_next_page_token false none status body =
      .ok (if cp * 300 < tc then some (Json.int (cp + 1)) else none) := by
  have htcv : (dictGet body "total_count").getD (Json.int 0) = Json.int tc := by
    unfold specTotalCount at htc
    rcases h : (dictGet body "total_count").getD (Json.int 0) with _ | n | s | l <;>
      rw [h] at htc <;> simp_all
  unfold get_next_page_token
  rw [if_neg (by simp), if_neg hs]
  unfold specCurrentPage at hcp
  rcases hsc : dictGet body "search_criteria" with _ | j
  · rw [hsc] at hcp
    simp only [Option.some.injEq] at hcp
    subst hcp
    simp [truthyOpt, htcv, pyMul, pyGt, pyAdd1, apply_ite]
  · rw [hsc] at hcp
    rcases j with _ | n | s | fields
    · simp only [Option.some.injEq, truthy, Bool.false_eq_true, if_false] at hcp
      subst hcp
      simp [truthyOpt, truthy, htcv, pyMul, pyGt, pyAdd1, apply_ite]
    · by_cases hn : n = 0
      · subst hn
        simp [truthy] at hcp
        subst hcp
        simp [truthyOpt, truthy, htcv, pyMul, pyGt, pyAdd1, apply_ite]
      · exfalso
        simp [truthy, hn] at hcp
    · by_cases hstr : s = ""
      · subst hstr
        simp [truthy] at hcp
        subst hcp
        simp [truthyOpt, truthy, htcv, pyMul, pyGt, pyAdd1, apply_ite]
      · exfalso
        simp [truthy, hstr] at hcp
    · by_cases hemp : fields.isEmpty
      · simp [hemp] at hcp
        subst hcp
        simp [truthyOpt, truthy, hemp, htcv, pyMul, pyGt, pyAdd1, apply_ite]
      · simp only [hemp, Bool.false_eq_true, if_false] at hcp
        rcases hcpf : dictGet fields "current_page" with _ | jcp <;>
          rw [hcpf] at hcp
        · exfalso; simp at hcp
        · rcases jcp with _ | n | s | l2 <;> simp only [Option.some.injEq] at hcp
          · exact absurd hcp (by simp)
          · subst hcp
            simp [truthyOpt, truthy, hemp, hcpf, htcv, pyMul, pyGt, pyAdd1,
              apply_ite]
          · exact absurd hcp (by simp)
          · exact absurd hcp (by simp)

theorem c1_page_token_arithmetic_witness :
    get_next_page_token false none 200 [("total_count", Json.int 301)]
      = .ok (some (Json.int 2)) := by
  have h := c1_page_token_arithmetic 200 [("total_count", Json.int 301)] 301 1
    (by decide) rfl rfl
  simpa using h

/-- C7: get_url_params always maps searchCriteria[pageSize] to 300, and
maps searchCriteria[currentPage] to the cursor when a page-number cursor
(a 1-based integer, per the spec's PageCursor) is given and to 1 when
the cursor is absent — for every replication key and start date. -/
theorem c7_url_params (rk : Option String) (sd : Option String)
    (tok : Option Json) (n : Int) (hn : 1 ≤ n) :
    dictGet (get_url_params rk sd tok) "searchCriteria[pageSize]"
      = some (Json.int 300) ∧
    dictGet (get_url_params rk sd (some (Json.int n))) "searchCriteria[currentPage]"
      = some (Json.int n) ∧
    dictGet (get_url_params rk sd none) "searchCriteria[currentPage]"
      = some (Json.int 1) := by
  have hcur : truthy (Json.int n) = true := by
    simp [truthy]
    omega
  rcases rk with _ | k
  · refine ⟨?_, ?_, ?_⟩ <;> simp [get_url_params, truthyStrOpt, dictGet, hcur]
  · by_cases hk : k = ""
    · subst hk
      refine ⟨?_, ?_, ?_⟩ <;> simp [get_url_params, truthyStrOpt, dictGet, hcur]
    · have hk2 : truthyStrOpt (some k) = true := by simp [truthyStrOpt, hk]
      rcases sd with _ | d <;>
        refine ⟨?_, ?_, ?_⟩ <;> simp [get_url_params, hk2, dictGet, hcur]

theorem c7_url_params_witness :
    dictGet (get_url_params none none (some (Json.int 5))) "searchCriteria[pageSize]"
      = some (Json.int 300) ∧
    dictGet (get_url_params none none (some (Json.int 5))) "searchCriteria[currentPage]"
      = some (Json.int 5) ∧
    dictGet (get_url_params none none none) "searchCriteria[currentPage]"
      = some (Json.int 1) :=
  c7_url_params none none (some (Json.int 5)) 5 (by decide)

/-- C10: whenever a replication key is configured but no starting
timestamp resolves, get_url_params still includes order_by naming the
replication key while including none of the sort or filter-group
parameters. -/
theorem c10_order_by_unconditional (k : String) (tok : Option Json)
    (hk : k ≠ "") :
    dictGet (get_url_params (some k) none tok) "order_by" = some (Json.str k) ∧
    dictGet (get_url_params (some k) none tok) "sort" = none ∧
    dictGet (get_url_params (some k) none tok)
      "searchCriteria[filterGroups][0][filters][0][field]" = none ∧
    dictGet (get_url_params (some k) none tok)
      "searchCriteria[filterGroups][0][filters][0][value]" = none ∧
    dictGet (get_url_params (some k) none tok)
      "searchCriteria[filterGroups][0][filters][0][conditionType]" = none := by
  have hk2 : truthyStrOpt (some k) = true := by simp [truthyStrOpt, hk]
  refine ⟨?_, ?_, ?_, ?_, ?_⟩ <;> simp [get_url_params, hk2, dictGet]

theorem c10_order_by_unconditional_witness :
    dictGet (get_url_params (some "updated_at") none none) "order_by"
      = some (Json.str "updated_at") ∧
    dictGet (get_url_params (some "updated_at") none none) "sort" = none ∧
    dictGet (get_url_params (some "updated_at") none none)
      "searchCriteria[filterGroups][0][filters][0][field]" = none ∧
    dictGet (get_url_params (some "updated_at") none none)
      "searchCriteria[filterGroups][0][filters][0][value]" = none ∧
    dictGet (get_url_params (some "updated_at") none none)
      "searchCriteria[filterGroups][0][filters][0][conditionType]" = none :=
  c10_order_by_unconditional "updated_at" none (by decide)

/-- C4: during token acquisition (empty cache), whenever the primary
POST raises — from a transport error, a body that fails to parse, or a
400-599 status caught by the eager json()/raise_for_status pair — the
fallback endpoint is POSTed exactly once with the same payload, and if
the fallback comes back with a non-success (400-599) status the
HTTPError of raise_for_status propagates to the caller. -/
theorem c4_fallback_once (cfg : Config) (st : Json)
    (respond : Endpoint → HttpResult)
    (hst : truthy st = false)
    (hp : primaryRaises (respond Endpoint.primary) = true) :
    (get_token cfg st respond).2.2
      = [(Endpoint.primary, tokenPayload cfg),
         (Endpoint.fallback, tokenPayload cfg)] ∧
    (∀ s b, respond Endpoint.fallback = HttpResult.ok s b →
      400 ≤ s → s < 600 →
      (get_token cfg st respond).1 = .error (HErr.httpError s)) := by
  constructor
  · simp [get_token, hst, hp]
  · intro s b hf h4 h6
    have hrs : raisesForStatus s = true := by simp [raisesForStatus, h4, h6]
    simp [get_token, hst, hp, hf, finishLogin, hrs]

theorem c4_fallback_once_witness :
    (get_token ⟨some "u", some "p", none⟩ Json.null
        (fun e => match e with
          | Endpoint.primary => HttpResult.exn
          | Endpoint.fallback => HttpResult.ok 401 (some (Json.obj [])))).2.2
      = [(Endpoint.primary, ⟨some "u", some "p"⟩),
         (Endpoint.fallback, ⟨some "u", some "p"⟩)] ∧
    (get_token ⟨some "u", some "p", none⟩ Json.null
        (fun e => match e with
          | Endpoint.primary => HttpResult.exn
          | Endpoint.fallback => HttpResult.ok 401 (some (Json.obj [])))).1
      = .error (HErr.httpError 401) := by
  have h := c4_fallback_once ⟨some "u", some "p", none⟩ Json.null
    (fun e => match e with
      | Endpoint.primary => HttpResult.exn
      | Endpoint.fallback => HttpResult.ok 401 (some (Json.obj [])))
    rfl rfl
  exact ⟨h.1, h.2 401 (some (Json.obj [])) rfl (by decide) (by decide)⟩

/-- C6 counterexample: the cache test is Python truthiness, not
"is not None".  With access_token cached as the empty string — a
non-None value a 2xx login whose body parses to "" produces — a further
get_token call performs HTTP requests again (here: two POSTs), where the
claim says a non-None token means zero requests. -/
theorem c6_counterexample :
    ((get_token ⟨some "u", some "p", none⟩ (Json.str "")
        (fun _ => HttpResult.exn)).2.2).length = 2 := rfl

/-- C6 amended: once access_token holds a truthy value, every subsequent
get_token call returns the cached value, performs no HTTP request, and
leaves the cached token unchanged (never invalidated); a falsy non-None
cached value such as the empty string instead triggers a fresh fetch
(see the counterexample). -/
theorem c6_token_cached (cfg : Config) (st : Json)
    (respond : Endpoint → HttpResult) (hst : truthy st = true) :
    get_token cfg st respond = (.ok st, st, []) := by
  simp [get_token, hst]

theorem c6_token_cached_witness :
    get_token ⟨some "u", some "p", none⟩ (Json.str "tok")
        (fun _ => HttpResult.exn)
      = (.ok (Json.str "tok"), Json.str "tok", []) :=
  c6_token_cached ⟨some "u", some "p", none⟩ (Json.str "tok")
    (fun _ => HttpResult.exn) rfl

theorem retryRun_all_fail (f : Nat → Except ApiErr α) :
    ∀ (n i : Nat),
      (∀ j, j ≤ n → ∃ e, f (i + j) = .error e ∧ isRetriable e = true) →
      ∃ e, f (i + n) = .error e ∧ retryRun f i n = (.error e, n + 1) := by
  intro n
  induction n with
  | zero =>
    intro i h
    obtain ⟨e, hfe, _⟩ := h 0 (by omega)
    rw [Nat.add_zero] at hfe
    exact ⟨e, by rw [Nat.add_zero]; exact hfe, by simp [retryRun, hfe]⟩
  | succ m ih =>
    intro i h
    obtain ⟨e0, hf0, hr0⟩ := h 0 (by omega)
    rw [Nat.add_zero] at hf0
    obtain ⟨e, hfe, hrr⟩ := ih (i + 1) (fun j hj => by
      obtain ⟨e2, hf2, hr2⟩ := h (j + 1) (by omega)
      exact ⟨e2, by rw [show i + 1 + j = i + (j + 1) by omega]; exact hf2, hr2⟩)
    refine ⟨e, by rw [show i + (m + 1) = i + 1 + m by omega]; exact hfe, ?_⟩
    simp [retryRun, hf0, hr0, hrr]

theorem retryRun_ok_after (f : Nat → Except ApiErr α) (a : α) :
    ∀ (k n i : Nat), k ≤ n →
      (∀ j, j < k → ∃ e, f (i + j) = .error e ∧ isRetriable e = true) →
      f (i + k) = .ok a → retryRun f i n = (.ok a, k + 1) := by
  intro k
  induction k with
  | zero =>
    intro n i _ _ hok
    rw [Nat.add_zero] at hok
    cases n <;> simp [retryRun, hok]
  | succ m ih =>
    intro n i hkn hfail hok
    cases n with
    | zero => omega
    | succ n0 =>
      obtain ⟨e0, hf0, hr0⟩ := hfail 0 (by omega)
      rw [Nat.add_zero] at hf0
      have ihh := ih n0 (i + 1) (by omega)
        (fun j hj => by
          obtain ⟨e2, hf2, hr2⟩ := hfail (j + 1) (by omega)
          exact ⟨e2, by rw [show i + 1 + j = i + (j + 1) by omega]; exact hf2,
            hr2⟩)
        (by rw [show i + 1 + m = i + (m + 1) by omega]; exact hok)
      simp [retryRun, hf0, hr0, ihh]

/-- C2: validate_response maps 5xx to RetriableAPIError (in the retried
tuple) and non-404 4xx to FatalAPIError (not in it); the wrapper
propagates a non-retriable first failure with a single attempt, makes
exactly 5 attempts and propagates the last error unchanged when every
attempt raises retriably, succeeds after k < 5 retriable failures with
exactly k+1 attempts, and its backoff.expo waits with factor 2 are
2 * 2 ^ n and strictly increasing. -/
theorem c2_retry_policy :
    (∀ s : Nat, 500 ≤ s → s < 600 →
      validate_response s = .error (.retriableAPI s) ∧
      isRetriable (.retriableAPI s) = true) ∧
    (∀ s : Nat, 400 ≤ s → s < 500 → s ≠ 404 →
      validate_response s = .error (.fatalAPI s) ∧
      isRetriable (.fatalAPI s) = false) ∧
    (∀ (α : Type) (f : Nat → Except ApiErr α) (e : ApiErr),
      f 0 = .error e → isRetriable e = false →
      request_decorator f = (.error e, 1)) ∧
    (∀ (α : Type) (f : Nat → Except ApiErr α),
      (∀ i, i < 5 → ∃ e, f i = .error e ∧ isRetriable e = true) →
      ∃ e4, f 4 = .error e4 ∧ request_decorator f = (.error e4, 5)) ∧
    (∀ (α : Type) (f : Nat → Except ApiErr α) (a : α) (k : Nat), k < 5 →
      (∀ j, j < k → ∃ e, f j = .error e ∧ isRetriable e = true) →
      f k = .ok a → request_decorator f = (.ok a, k + 1)) ∧
    (∀ n : Nat, backoffWait n = 2 * 2 ^ n ∧ backoffWait n < backoffWait (n + 1)) := by
  refine ⟨?_, ?_, ?_, ?_, ?_, ?_⟩
  · intro s h5 h6
    refine ⟨?_, rfl⟩
    unfold validate_response
    rw [if_neg (by omega), if_neg (by omega), if_pos (by omega)]
  · intro s h4 h5 hne
    refine ⟨?_, rfl⟩
    unfold validate_response
    rw [if_neg hne, if_pos (by omega)]
  · intro α f e hf0 hre
    simp [request_decorator, retryRun, hf0, hre]
  · intro α f h
    obtain ⟨e, hfe, hrr⟩ := retryRun_all_fail f 4 0
      (fun j hj => by simpa using h j (by omega))
    exact ⟨e, by simpa using hfe, hrr⟩
  · intro α f a k hk hfail hok
    exact retryRun_ok_after f a k 4 0 (by omega)
      (fun j hj => by simpa using hfail j hj) (by simpa using hok)
  · intro n
    refine ⟨rfl, ?_⟩
    have h : (2 : Nat) ^ n < 2 ^ (n + 1) := Nat.pow_lt_pow_succ (by omega)
    simp only [backoffWait]
    omega

theorem c2_retry_policy_witness :
    validate_response 503 = .error (.retriableAPI 503) ∧
    validate_response 403 = .error (.fatalAPI 403) ∧
    request_decorator (fun _ => (.error (ApiErr.fatalAPI 403) : Except ApiErr Unit))
      = (.error (ApiErr.fatalAPI 403), 1) ∧
    request_decorator (fun _ => (.error (ApiErr.retriableAPI 503) : Except ApiErr Unit))
      = (.error (ApiErr.retriableAPI 503), 5) ∧
    request_decorator (fun i => if i < 2 then (.error ApiErr.readTimeout : Except ApiErr Nat) else .ok 7)
      = (.ok 7, 3) ∧
    backoffWait 0 = 2 ∧ backoffWait 0 < backoffWait 1 := by
  obtain ⟨h1, h2, h3, h4, h5, h6⟩ := c2_retry_policy
  refine ⟨(h1 503 (by omega) (by omega)).1, (h2 403 (by omega) (by omega) (by omega)).1,
    h3 Unit _ _ rfl rfl, ?_, ?_, rfl, (h6 0).2⟩
  · obtain ⟨e4, he4, hr⟩ := h4 Unit (fun _ => .error (ApiErr.retriableAPI 503))
      (fun i _ => ⟨ApiErr.retriableAPI 503, rfl, rfl⟩)
    injection he4 with h
    rw [← h] at hr
    exact hr
  · exact h5 Nat (fun i => if i < 2 then .error ApiErr.readTimeout else .ok 7) 7 2
      (by omega) (fun j hj => ⟨ApiErr.readTimeout, by simp [hj], rfl⟩) (by simp)

/-- C9 (code bug): the claim — every network-level failure, read timeout
and connection failure alike, is retried like RetriableAPIError — is
what the retry tuple visibly intends, but the code names the builtin
ConnectionError there, and a connection-level failure of a wrapped
requests call raises requests.exceptions.ConnectionError, which is not
a subclass of the builtin.  Evaluating the code: a read timeout on
every attempt is retried to the full 5-attempt ceiling like a 5xx,
while a connection failure on the first attempt propagates immediately
after a single attempt — zero retries. -/
theorem c9_connection_error_not_retried :
    isRetriable ApiErr.readTimeout = true ∧
    isRetriable (ApiErr.retriableAPI 503) = true ∧
    isRetriable ApiErr.connectionError = true ∧
    isRetriable ApiErr.requestsConnectionError = false ∧
    request_decorator
        (fun _ => (.error ApiErr.readTimeout : Except ApiErr Unit))
      = (.error ApiErr.readTimeout, 5) ∧
    request_decorator
        (fun _ => (.error (ApiErr.retriableAPI 503) : Except ApiErr Unit))
      = (.error (ApiErr.retriableAPI 503), 5) ∧
    request_decorator
        (fun _ => (.error ApiErr.requestsConnectionError : Except ApiErr Unit))
      = (.error ApiErr.requestsConnectionError, 1) :=
  ⟨rfl, rfl, rfl, rfl, rfl, rfl, rfl⟩

end TapMagento
